import Mathlib

set_option maxRecDepth 16000
set_option maxHeartbeats 1600000

/-
Verification of the content-credibility pipeline in `fact_check_bot.py`
(SukinShetty/factcheckagent).

The development shallowly embeds the deterministic control logic of the
repository.  External collaborators (the Firecrawl HTTP API, the
DuckDuckGo search client, BeautifulSoup selector queries, and the CrewAI
crew runs) are modelled as explicit inputs: a structure or inductive
value describes what the collaborator returned, and the embedded
function reproduces the Python control flow over it.

Python string primitives are re-implemented over `List Char` so that
every definition is executable and kernel-reducible:
  - `strContains`   models Python's `in` on strings,
  - `strStarts`     models `str.startswith`,
  - `pyStrip`       models `str.strip()` (ASCII whitespace; the Unicode
                    whitespace classes of Python are not needed by any
                    input considered here),
  - `lowerStr`      models `str.lower()` (ASCII case folding),
  - Python `len`    corresponds to `String.length` (both count code
                    points).
-/

/-- Python's whitespace class for `str.strip` and the regex class
backslash-s, restricted to the ASCII characters space, tab, newline,
carriage return, form feed and vertical tab. -/
def pyWs (c : Char) : Bool :=
  c = ' ' || c = '\t' || c = '\n' || c = '\r' || c = '\x0c' || c = '\x0b'

/-- List-level prefix test: does the first list start with the second? -/
def startsWithL : List Char → List Char → Bool
  | _, [] => true
  | [], _ :: _ => false
  | c :: cs, p :: ps => if c = p then startsWithL cs ps else false

/-- List-level substring test, Python's `pat in hay`. -/
def containsL : List Char → List Char → Bool
  | [], pat => pat.isEmpty
  | c :: cs, pat => startsWithL (c :: cs) pat || containsL cs pat

/-- Python `pat in hay` on strings. -/
def strContains (hay pat : String) : Bool := containsL hay.data pat.data

/-- Python `s.startswith(p)`. -/
def strStarts (s p : String) : Bool := startsWithL s.data p.data

/-- List-level suffix test (used to state the final-label property). -/
def endsWithL (s suffix : String) : Bool :=
  startsWithL s.data.reverse suffix.data.reverse

/-- Python `s.strip()` on a character list: drop leading and trailing
whitespace. -/
def pyStripList (cs : List Char) : List Char :=
  ((cs.dropWhile pyWs).reverse.dropWhile pyWs).reverse

/-- Python `s.strip()`. -/
def pyStrip (s : String) : String := String.mk (pyStripList s.data)

/-- Python `s.lower()` (ASCII case folding). -/
def lowerStr (s : String) : String := String.mk (s.data.map Char.toLower)

/-! ## Primary extraction: `FirecrawlTool._run` (fact_check_bot.py 80-210)

The method first validates its `url` argument, then posts to the
Firecrawl API.  The ambient CrewAI task-context lookup at the top of the
method (lines 89-107) may replace `url` by the context URL before any of
this; the model takes the effective URL after that substitution.  The
network interaction is an input:

  - `hasKey = false`  models `FIRECRAWL_API_KEY` missing (line 139),
  - `net = none`      models a `requests` or JSON exception (201-210),
  - `net = some r`    models a decoded HTTP response: status code,
    API-level success flag and the `data.markdown` / `data.html` fields
    (`none` when the key is absent from the JSON object).

The result pairs the returned string with the number of times
`_fallback_scrape` was invoked; `fallbackResult` is what that call
returns. -/

structure APIResponse where
  statusCode : Nat
  success : Bool
  markdown : Option String
  html : Option String

/-- Line 179: `data.get("data", {}).get("markdown", data.get("data", {}).get("html", ""))`. -/
def primaryContent (r : APIResponse) : String :=
  match r.markdown with
  | some m => m
  | none =>
    match r.html with
    | some h => h
    | none => ""

/-- Lines 109-210 of `FirecrawlTool._run`: validation, the primary API
call, the content-quality gate of line 180, and the fallback calls. -/
def firecrawlRun (url : String) (hasKey : Bool) (net : Option APIResponse)
    (fallbackResult : String) : String × Nat :=
  if url = "" then ("Error: No URL provided", 0)
  else if (strStarts url "http://" || strStarts url "https://") = false then
    ("Error: Invalid URL format. URL must start with http:// or https://", 0)
  else if hasKey = false then (fallbackResult, 1)
  else
    match net with
    | none => (fallbackResult, 1)
    | some r =>
      if r.statusCode = 200 then
        if r.success = true then
          let content := primaryContent r
          if content ≠ "" ∧ 100 < (pyStrip content).length ∧
              strContains content "Example Domain" = false then
            (content, 0)
          else (fallbackResult, 1)
        else (fallbackResult, 1)
      else (fallbackResult, 1)

/-- C1: for every primary-extraction API response with HTTP status 200 and
success flag true whose content is at most 100 characters after stripping
or contains the placeholder marker "Example Domain", `FirecrawlTool._run`
invokes `_fallback_scrape` exactly once and returns its result
unchanged. -/
theorem c1_low_quality_triggers_fallback (url : String) (r : APIResponse)
    (fallbackResult : String)
    (hurl : strStarts url "http://" = true ∨ strStarts url "https://" = true)
    (hstatus : r.statusCode = 200) (hsucc : r.success = true)
    (hbad : (pyStrip (primaryContent r)).length ≤ 100 ∨
      strContains (primaryContent r) "Example Domain" = true) :
    firecrawlRun url true (some r) fallbackResult = (fallbackResult, 1) := by
  have hne : ¬ url = "" := by
    intro he
    subst he
    rcases hurl with h | h <;> exact absurd h (by decide)
  have hsw : ¬ (strStarts url "http://" || strStarts url "https://") = false := by
    rcases hurl with h | h <;> simp [h]
  have hcond : ¬ (primaryContent r ≠ "" ∧ 100 < (pyStrip (primaryContent r)).length ∧
      strContains (primaryContent r) "Example Domain" = false) := by
    rintro ⟨-, hlen, hmark⟩
    rcases hbad with h | h
    · omega
    · rw [h] at hmark
      exact absurd hmark (by decide)
  unfold firecrawlRun
  rw [if_neg hne, if_neg hsw, if_neg (by simp)]
  simp [hstatus, hsucc, hcond]

/-- Witness for C1 at a concrete response: status 200, success true,
content exactly the placeholder page. -/
theorem c1_low_quality_triggers_fallback_witness :
    firecrawlRun "https://example.com/x" true
      (some { statusCode := 200, success := true,
              markdown := some "Example Domain page body", html := none })
      "fallback text" = ("fallback text", 1) :=
  c1_low_quality_triggers_fallback _ _ _ (Or.inr (by decide)) rfl rfl
    (Or.inr (by decide))

/-! ## Fallback scraping: `FirecrawlTool._fallback_scrape` (lines 212-397)

The method fetches the page itself and walks a cascade of extraction
strategies over the parsed HTML.  BeautifulSoup selector queries are the
external collaborator here; `ScrapeDoc` records what each query family
returned, already flattened in document order:

  - `headline`       the first hit among the BBC headline selectors
                     (lines 252-265), raw `get_text()`;
  - `containerParas` the paragraphs found inside the BBC content
                     containers by the three paragraph selectors
                     (lines 272-304), each with `str(p.get('class', []))`;
  - `metaTexts`      the BBC metadata elements (lines 307-330);
  - `allParas`       `soup.select('p')` over the whole page
                     (lines 335, 358);
  - `mainParas`      the paragraphs of
                     `soup.select_one('main, article, ...')`, `none`
                     when no such container exists (line 347);
  - `bodyText`       `soup.body.get_text()`, `none` when there is no
                     body element (line 369). -/

structure ScrapeDoc where
  headline : Option String
  containerParas : List (String × String)
  metaTexts : List String
  allParas : List String
  mainParas : Option (List String)
  bodyText : Option String

/-- Line 298: skip paragraphs whose class string mentions navigation,
social, share or hidden. -/
def bbcSkipClass (classes : String) : Bool :=
  strContains classes "navigation" || strContains classes "social" ||
    strContains classes "share" || strContains classes "hidden"

/-- Lines 260-269: the headline block `# {headline_text}`. -/
def bbcHeadBlocks (doc : ScrapeDoc) : List String :=
  match doc.headline with
  | some h => ["# " ++ pyStrip h]
  | none => []

/-- Lines 290-304: paragraphs from the BBC content containers, class
filter and the length/`Share this` gate of line 302. -/
def bbcContainerBlocks (paras : List (String × String)) : List String :=
  paras.filterMap fun p =>
    if bbcSkipClass p.1 = true then none
    else
      let t := pyStrip p.2
      if t ≠ "" ∧ 10 < t.length ∧ strStarts t "Share this" = false then some t
      else none

/-- Line 328: metadata elements are dropped when they mention sharing or
subscription boilerplate. -/
def metaSkip (t : String) : Bool :=
  strContains (lowerStr t) "share this" || strContains (lowerStr t) "follow us" ||
    strContains (lowerStr t) "subscribe"

/-- Lines 322-330: metadata blocks `*{meta_text}*`. -/
def bbcMetaBlocks (ms : List String) : List String :=
  ms.filterMap fun m =>
    let t := pyStrip m
    if t ≠ "" ∧ metaSkip t = false then some ("*" ++ t ++ "*") else none

/-- Line 340: boilerplate filter for the BBC generic-paragraph fill. -/
def bbcNoise (t : String) : Bool :=
  strContains (lowerStr t) "cookie" || strContains (lowerStr t) "subscribe" ||
    strContains (lowerStr t) "newsletter" || strContains (lowerStr t) "share this"

/-- Lines 333-342: when the BBC-specific selectors produced nothing, all
paragraphs longer than 40 characters that pass the noise filter. -/
def bbcGenericParaBlocks (ps : List String) : List String :=
  ps.filterMap fun p =>
    let t := pyStrip p
    if t ≠ "" ∧ 40 < t.length ∧ bbcNoise t = false then some t else none

/-- Lines 247-342: the whole BBC-specific extraction branch. -/
def bbcBlocks (doc : ScrapeDoc) : List String :=
  let blocks := bbcHeadBlocks doc ++ bbcContainerBlocks doc.containerParas ++
    bbcMetaBlocks doc.metaTexts
  if blocks.isEmpty then bbcGenericParaBlocks doc.allParas else blocks

/-- Lines 345-364: the generic extraction tier.  When the
`main, article, ...` container exists its paragraphs longer than 30
characters are taken; only when no such container exists are all
paragraphs longer than 50 characters scanned. -/
def genericBlocks (doc : ScrapeDoc) : List String :=
  match doc.mainParas with
  | some ps =>
    ps.filterMap fun p =>
      let t := pyStrip p
      if t ≠ "" ∧ 30 < t.length then some t else none
  | none =>
    doc.allParas.filterMap fun p =>
      let t := pyStrip p
      if t ≠ "" ∧ 50 < t.length then some t else none

/-- Whitespace normalisation `re.sub(r'\s+', ' ', body_text)` of
line 371; the flag records whether the previous character was part of a
whitespace run that has already emitted its single space. -/
def wsNormGo : Bool → List Char → List Char
  | _, [] => []
  | inWs, c :: rest =>
    if pyWs c = true then
      if inWs then wsNormGo true rest else ' ' :: wsNormGo true rest
    else c :: wsNormGo false rest

/-- Whitespace normalisation of line 371. -/
def wsNorm (cs : List Char) : List Char := wsNormGo false cs

/-- Case-insensitive match of one of the noise phrases of line 373 at the
head of the list, returning the matched length. -/
def phraseLen (cs : List Char) : Option Nat :=
  if startsWithL (cs.map Char.toLower) "share this".data = true then some 10
  else if startsWithL (cs.map Char.toLower) "follow us".data = true then some 9
  else if startsWithL (cs.map Char.toLower) "subscribe".data = true then some 9
  else if startsWithL (cs.map Char.toLower) "cookie".data = true then some 6
  else if startsWithL (cs.map Char.toLower) "newsletter".data = true then some 10
  else none

/-- Drop characters through the first `'.'` inclusive, or everything if
there is none: the non-greedy `.*?(\.|$)` part of the noise pattern
(after whitespace normalisation the text holds no newline, so `.`
matches every character). -/
def dropToDot : List Char → List Char
  | [] => []
  | '.' :: rest => rest
  | _ :: rest => dropToDot rest

/-- One pass of
`re.sub(r'(Share this|Follow us|Subscribe|Cookie|Newsletter).*?(\.|$)', '', ..., flags=re.IGNORECASE)`
(line 373).  The fuel argument only makes the recursion structural: every
step consumes at least one character, so fuel `cs.length` is never
exhausted. -/
def noiseStripGo : Nat → List Char → List Char
  | 0, cs => cs
  | _ + 1, [] => []
  | fuel + 1, c :: rest =>
    match phraseLen (c :: rest) with
    | some n => noiseStripGo fuel (dropToDot (List.drop n (c :: rest)))
    | none => c :: noiseStripGo fuel rest

/-- The noise-phrase substitution of line 373. -/
def noiseStrip (cs : List Char) : List Char := noiseStripGo cs.length cs

/-- Lines 367-375: last-resort body text, stripped, whitespace
normalised, noise-stripped and truncated to 8000 characters. -/
def bodyBlocks (doc : ScrapeDoc) : List String :=
  let bt :=
    match doc.bodyText with
    | some b => pyStripList b.data
    | none => []
  [String.mk (List.take 8000 (noiseStrip (wsNorm bt)))]

/-- Line 248: BBC detection, `"bbc.com" in url or "bbc.co.uk" in url`. -/
def isBBCUrl (url : String) : Bool :=
  strContains url "bbc.com" || strContains url "bbc.co.uk"

/-- Lines 245-375: the full content-block cascade of `_fallback_scrape`. -/
def extractBlocks (url : String) (doc : ScrapeDoc) : List String :=
  let blocks := if isBBCUrl url = true then bbcBlocks doc else []
  let blocks := if blocks.isEmpty then genericBlocks doc else blocks
  if blocks.isEmpty then bodyBlocks doc else blocks

/-- Concatenation with the separator of line 378. -/
def joinSep : List String → String
  | [] => ""
  | [b] => b
  | b :: c :: rest => b ++ "\n\n" ++ joinSep (c :: rest)

/-- Line 378: `"\n\n".join(block.strip() for block in content_blocks if block.strip())`. -/
def joinBlocks (blocks : List String) : String :=
  joinSep (((blocks.map pyStrip).filter (fun b => b ≠ "")))

/-- The network side of `_fallback_scrape`: either a decoded response
(status code, resolved URL after redirects, parsed document) or a raised
exception caught by line 394. -/
inductive FetchResult where
  | ok (statusCode : Nat) (finalUrl : String) (doc : ScrapeDoc)
  | exn (msg : String)

/-- A `_fallback_scrape` return value, tagged by which return statement
produced it: `article` for the extracted-content return of line 389,
`errorResult` for the error-message returns (lines 241, 387, 393, 397). -/
inductive FallbackOutcome where
  | article (text : String)
  | errorResult (msg : String)
deriving DecidableEq

/-- The string actually returned (the tags only name the return sites). -/
def renderFallback : FallbackOutcome → String
  | .article t => t
  | .errorResult m => m

/-- Lines 212-397: `_fallback_scrape` over an explicit fetch result. -/
def fallbackScrapeO : String → FetchResult → FallbackOutcome
  | url, .exn m => .errorResult ("Error scraping URL " ++ url ++ ": " ++ m)
  | url, .ok status finalUrl doc =>
    if status = 200 then
      if strContains (lowerStr finalUrl) "example.com" = true then
        .errorResult ("Error: Redirected to example.com while scraping " ++ url ++ ".")
      else
        let article := joinBlocks (extractBlocks url doc)
        if article.length < 100 then
          .errorResult ("Error: Could not extract meaningful content from " ++ url ++ ".")
        else .article article
    else .errorResult ("Error: Failed to retrieve content. Status code: " ++ toString status)

/-! ## URL validation (fact_check_url, lines 659-676)

`re.compile(r'^https?://[^\s/$.?#].[^\s]*$').match(url)`: the scheme,
one character outside whitespace and `/$.?#`, one arbitrary
non-newline character (`.`), then non-whitespace characters to the end.
`$` also matches just before a newline that ends the string, which the
wrapper below accounts for. -/

/-- The `https?://` part: strip the scheme, or fail. -/
def schemeSplit : List Char → Option (List Char)
  | 'h' :: 't' :: 't' :: 'p' :: rest =>
    match rest with
    | 's' :: ':' :: '/' :: '/' :: r => some r
    | ':' :: '/' :: '/' :: r => some r
    | _ => none
  | _ => none

/-- The part after the scheme: `[^\s/$.?#].[^\s]*`, anchored to the end. -/
def tailMatch : List Char → Bool
  | c1 :: c2 :: rest =>
    if pyWs c1 = true ∨ c1 = '/' ∨ c1 = '$' ∨ c1 = '.' ∨ c1 = '?' ∨ c1 = '#' then false
    else if c2 = '\n' then false
    else rest.all fun c => !(pyWs c)
  | _ => false

/-- Full match of the URL pattern against one candidate string. -/
def urlPatternCore (cs : List Char) : Bool :=
  match schemeSplit cs with
  | some rest => tailMatch rest
  | none => false

/-- Line 660-661: does `url` match the URL pattern (`$` may also match
before a trailing newline)? -/
def urlPatternMatch (url : String) : Bool :=
  urlPatternCore url.data ||
    (match url.data.getLast? with
     | some c => if c = '\n' then urlPatternCore url.data.dropLast else false
     | none => false)

/-- Decimal value of an ASCII digit. -/
def digVal (c : Char) : Nat := c.toNat - '0'.toNat

/-- Line 667: `re.search(r'/(\d{4})/', url)` — the first slash-delimited
run of exactly four digits, scanned left to right. -/
def findYear : List Char → Option Nat
  | [] => none
  | c :: rest =>
    if c = '/' then
      match rest with
      | a :: b :: d :: e :: '/' :: _ =>
        if a.isDigit && b.isDigit && d.isDigit && e.isDigit then
          some (1000 * digVal a + 100 * digVal b + 10 * digVal d + digVal e)
        else findYear rest
      | _ => findYear rest
    else findYear rest

/-- Spec-side reading for C5: every slash-delimited four-digit segment in
the URL, not only the first one the code finds. -/
def specYearSegs : List Char → List Nat
  | [] => []
  | c :: rest =>
    if c = '/' then
      match rest with
      | a :: b :: d :: e :: '/' :: _ =>
        if a.isDigit && b.isDigit && d.isDigit && e.isDigit then
          (1000 * digVal a + 100 * digVal b + 10 * digVal d + digVal e) :: specYearSegs rest
        else specYearSegs rest
      | _ => specYearSegs rest
    else specYearSegs rest

/-- Spec-side reading for C5: the URL contains some four-digit path
segment interpretable as a year strictly greater than `cy`. -/
def specContainsFutureYear (url : String) (cy : Nat) : Bool :=
  (specYearSegs url.data).any fun y => cy < y

/-- The year guard of lines 666-673 passes (no early future-date return). -/
def yearGuardOk (url : String) (cy : Nat) : Bool :=
  match findYear url.data with
  | some y => decide (y ≤ cy)
  | none => true

/-! ## The orchestrator: `fact_check_url` and `fact_check_text`
(lines 649-775)

The CrewAI kickoff is the external collaborator.  `CrewResult` describes
one kickoff: a dict carrying `tasks_output` (modelled as the list of the
tasks' `.raw` strings), any other result (stringified by `str(result)`),
or a raised exception caught by the entry function's catch-all. -/

inductive CrewResult where
  | tasksOutput (outs : List String)
  | otherResult (s : String)
  | raised (msg : String)

/-- Everything `fact_check_url` consumes besides the URL: the current
year (`datetime.now().year`), the URL-pipeline kickoff, the page fetch
behind the direct `_fallback_scrape` call of line 717, and the kickoff
behind the `fact_check_text` re-entry of line 720. -/
structure BotEnv where
  currentYear : Nat
  urlCrew : CrewResult
  pageFetch : FetchResult
  textCrew : CrewResult

/-- Lines 756-775: `fact_check_text`.  The text itself only feeds the
crew, whose behaviour the `crew` argument records; an empty
`tasks_output` list makes `[-1]` raise `IndexError`, which the
catch-all stringifies. -/
def factCheckText (_text : String) (crew : CrewResult) : String :=
  match crew with
  | .tasksOutput outs =>
    match outs.getLast? with
    | some last => last
    | none => "Error: list index out of range"
  | .otherResult s => s
  | .raised m => "Error: " ++ m

/-- A `fact_check_url` return value, tagged by return site: `failure`
for the error returns (lines 663, 673, 723, 754), `report` for the
others (lines 720, 745, 749, 751). -/
inductive UrlOutcome where
  | report (s : String)
  | failure (s : String)
deriving DecidableEq

/-- The string `fact_check_url` actually returns. -/
def renderOutcome : UrlOutcome → String
  | .report s => s
  | .failure s => s

/-- Lines 738-743: the BBC-specific reformatting, ending in the fixed
final label. -/
def bbcFormat (url finalSummary : String) : String :=
  ("Based on the provided content from " ++ url ++
    ":\n1. Overall Assessment: " ++ finalSummary ++
    "\n2. Source: BBC News, a generally reliable mainstream news source." ++
    "\n3. Recommendations: Information from BBC News is generally reliable, " ++
    "but for complete verification, cross-reference with other reputable sources.\n\n") ++
  "**Real**"

/-- Line 707: `task_outputs[0].raw if len(task_outputs) > 0 else "No content extraction result"`. -/
def cerOf (outs : List String) : String := outs.headD "No content extraction result"

/-- Line 725: `task_outputs[-1].raw if task_outputs else "No results available"`. -/
def finalSummaryOf (outs : List String) : String :=
  match outs.getLast? with
  | some l => l
  | none => "No results available"

/-- Lines 682-754: the body of the `try` block (after URL validation).
The repeated `renderFallback (fallbackScrapeO ...)` expression is the
single `content` variable of line 717 (the call is pure in the model, so
sharing is immaterial). -/
def factCheckUrlPipeline (url : String) (env : BotEnv) : UrlOutcome :=
  match env.urlCrew with
  | .raised m => .failure ("Error: " ++ m)
  | .otherResult s => .report s
  | .tasksOutput outs =>
    if strContains (cerOf outs) "Error" = true ∧ (cerOf outs).length < 500 then
      if isBBCUrl url = true then
        if 500 < (renderFallback (fallbackScrapeO url env.pageFetch)).length then
          .report (factCheckText (renderFallback (fallbackScrapeO url env.pageFetch))
            env.textCrew)
        else .failure ("Failed to extract content from URL: " ++ url ++ ". " ++ cerOf outs)
      else .failure ("Failed to extract content from URL: " ++ url ++ ". " ++ cerOf outs)
    else
      if isBBCUrl url = true ∧
          strContains (lowerStr (finalSummaryOf outs)) "verifiable claims" = false then
        .report (bbcFormat url (finalSummaryOf outs))
      else .report (finalSummaryOf outs)

/-- Lines 649-754: `fact_check_url` with its outcome tagged by return
site. -/
def factCheckUrlO (url : String) (env : BotEnv) : UrlOutcome :=
  if urlPatternMatch url = true then
    match findYear url.data with
    | some y =>
      if env.currentYear < y then
        .failure ("Error: URL contains a future date (" ++ toString y ++
          "), which may not be valid. Please check the URL.")
      else factCheckUrlPipeline url env
    | none => factCheckUrlPipeline url env
  else
    .failure "Error: Invalid URL format. Please provide a valid URL starting with http:// or https://."

/-- The string `fact_check_url` returns. -/
def factCheckUrl (url : String) (env : BotEnv) : String :=
  renderOutcome (factCheckUrlO url env)

/-! ## Prefix and suffix helper lemmas -/

theorem data_append (a b : String) : (a ++ b).data = a.data ++ b.data := by
  cases a
  cases b
  rfl

theorem startsWithL_nil (l : List Char) : startsWithL l [] = true := by
  cases l <;> rfl

theorem startsWithL_append_left (p : List Char) :
    ∀ a b : List Char, startsWithL a p = true → startsWithL (a ++ b) p = true := by
  induction p with
  | nil => intro a b _; exact startsWithL_nil _
  | cons q qs ih =>
    intro a b h
    cases a with
    | nil => exact absurd h (by simp [startsWithL])
    | cons c cs =>
      simp only [startsWithL, List.cons_append] at h ⊢
      by_cases hc : c = q
      · rw [if_pos hc] at h ⊢
        exact ih cs b h
      · rw [if_neg hc] at h
        exact absurd h (by simp)

theorem strStarts_append (a b p : String) (h : strStarts a p = true) :
    strStarts (a ++ b) p = true := by
  unfold strStarts at h ⊢
  rw [data_append]
  exact startsWithL_append_left p.data a.data b.data h

theorem startsWithL_self_append : ∀ p r : List Char, startsWithL (p ++ r) p = true := by
  intro p
  induction p with
  | nil => intro r; exact startsWithL_nil _
  | cons q qs ih =>
    intro r
    simp only [startsWithL, List.cons_append, if_pos rfl]
    exact ih r

theorem endsWithL_append (x suffix : String) : endsWithL (x ++ suffix) suffix = true := by
  unfold endsWithL
  rw [data_append, List.reverse_append]
  exact startsWithL_self_append suffix.data.reverse x.data.reverse

/-! ## C8: the short-content guard of `_fallback_scrape` -/

/-- C8: the fallback scraper returns an "Error:"-prefixed result whenever
the final joined text is under 100 characters (given that the page
fetched with status 200 and was not redirected to the placeholder
domain), and it never returns text shorter than 100 characters as
article content. -/
theorem c8_short_content_is_error :
    (∀ (url : String) (fetch : FetchResult) (a : String),
      fallbackScrapeO url fetch = .article a → 100 ≤ a.length) ∧
    (∀ (url finalUrl : String) (doc : ScrapeDoc),
      strContains (lowerStr finalUrl) "example.com" = false →
      (joinBlocks (extractBlocks url doc)).length < 100 →
      fallbackScrapeO url (.ok 200 finalUrl doc) =
        .errorResult ("Error: Could not extract meaningful content from " ++ url ++ ".") ∧
      strStarts ("Error: Could not extract meaningful content from " ++ url ++ ".")
        "Error:" = true) := by
  constructor
  · intro url fetch a h
    cases fetch with
    | exn m => exact absurd h (by simp [fallbackScrapeO])
    | ok status finalUrl doc =>
      simp only [fallbackScrapeO] at h
      by_cases hs : status = 200
      · rw [if_pos hs] at h
        by_cases hred : strContains (lowerStr finalUrl) "example.com" = true
        · rw [if_pos hred] at h
          exact absurd h (by simp)
        · rw [if_neg hred] at h
          by_cases hlen : (joinBlocks (extractBlocks url doc)).length < 100
          · rw [if_pos hlen] at h
            exact absurd h (by simp)
          · rw [if_neg hlen] at h
            cases h
            omega
      · rw [if_neg hs] at h
        exact absurd h (by simp)
  · intro url finalUrl doc hred hlen
    constructor
    · simp [fallbackScrapeO, hred, hlen]
    · exact strStarts_append _ _ _
        (strStarts_append "Error: Could not extract meaningful content from " url "Error:"
          (by decide))

/-! ## C3: the strategy cascade of `_fallback_scrape`

The claim describes four strategies tried in order with a short-circuit
on the first non-empty result: domain-specific selectors, generic
content-container selectors, all paragraphs above a length threshold,
whole-body text.  The definitions below follow the claim's words (they
are the spec-side reading, for comparison with `extractBlocks`, which is
translated from the code). -/

/-- Spec-side tier 2 of C3: paragraphs of the generic content container,
with the code's 30-character threshold; empty when no container exists. -/
def specMainContainerBlocks (doc : ScrapeDoc) : List String :=
  match doc.mainParas with
  | some ps =>
    ps.filterMap fun p =>
      let t := pyStrip p
      if t ≠ "" ∧ 30 < t.length then some t else none
  | none => []

/-- Spec-side tier 3 of C3: all paragraph elements site-wide with the
code's 50-character minimum length threshold. -/
def specAllParaBlocks (doc : ScrapeDoc) : List String :=
  doc.allParas.filterMap fun p =>
    let t := pyStrip p
    if t ≠ "" ∧ 50 < t.length then some t else none

/-- Spec-side reading of C3: the ordered strategy list. -/
def specTierList (url : String) (doc : ScrapeDoc) : List (List String) :=
  [if isBBCUrl url = true then bbcBlocks doc else [],
   specMainContainerBlocks doc,
   specAllParaBlocks doc,
   bodyBlocks doc]

/-- Spec-side reading of C3: short-circuit on the first strategy that
yields a non-empty set of content blocks. -/
def firstNonEmptyTier : List (List String) → List String
  | [] => []
  | t :: ts => if t.isEmpty then firstNonEmptyTier ts else t

/-- The domain-specific tier as the code runs it: the BBC branch for BBC
URLs, nothing otherwise (lines 248-342). -/
def bbcTierBlocks (url : String) (doc : ScrapeDoc) : List String :=
  if isBBCUrl url = true then bbcBlocks doc else []

/-- Counterexample to C3 as stated: a non-BBC page whose generic content
container exists but holds only one short paragraph, while the page as a
whole has a paragraph longer than 50 characters.  The claimed strategy
order would surface that paragraph through the all-paragraphs tier; the
code never reaches that tier when the container element exists and jumps
straight to whole-body text. -/
theorem c3_strategy_order_counterexample :
    extractBlocks "https://news.site.org/a"
        { headline := none, containerParas := [], metaTexts := [],
          allParas := ["The council voted to approve the new housing development plan after a long public hearing on Tuesday."],
          mainParas := some ["short"],
          bodyText := some "body text here" } ≠
      firstNonEmptyTier (specTierList "https://news.site.org/a"
        { headline := none, containerParas := [], metaTexts := [],
          allParas := ["The council voted to approve the new housing development plan after a long public hearing on Tuesday."],
          mainParas := some ["short"],
          bodyText := some "body text here" }) := by
  decide

/-- C3 as amended: the fallback scraper short-circuits over three tiers
in fixed order — the domain-specific (BBC) strategy, then a generic tier
that takes the main content container's paragraphs when such a container
exists and otherwise all paragraph elements above a length threshold,
then whole-body text — and every whole-body block is truncated to at
most 8000 characters.  When a main container exists but yields no
qualifying paragraph the all-paragraphs scan is skipped (that is the one
departure from the claim as stated). -/
theorem c3_strategy_order_amended (url : String) (doc : ScrapeDoc) :
    extractBlocks url doc =
      firstNonEmptyTier [bbcTierBlocks url doc, genericBlocks doc, bodyBlocks doc] ∧
    (∀ s, s ∈ bodyBlocks doc → s.length ≤ 8000) := by
  constructor
  · unfold extractBlocks bbcTierBlocks firstNonEmptyTier
    by_cases h1 : (if isBBCUrl url = true then bbcBlocks doc else []).isEmpty
    · rw [if_pos h1]
      simp only [h1, if_true]
      by_cases h2 : (genericBlocks doc).isEmpty
      · rw [if_pos h2]
        simp [h2, firstNonEmptyTier, bodyBlocks]
      · rw [if_neg h2]
        simp [h2, firstNonEmptyTier]
    · rw [if_neg h1]
      simp [h1]
  · intro s hs
    unfold bodyBlocks at hs
    rw [List.mem_singleton] at hs
    subst hs
    show (List.take 8000 _).length ≤ 8000
    rw [List.length_take]
    omega

/-- Witness for C3: on a page with only body text, the cascade lands on
the whole-body tier and its block respects the 8000-character bound. -/
theorem c3_strategy_order_amended_witness :
    extractBlocks "https://news.site.org/a"
        { headline := none, containerParas := [], metaTexts := [],
          allParas := [], mainParas := none, bodyText := some "abc" } =
      firstNonEmptyTier [bbcTierBlocks "https://news.site.org/a"
          { headline := none, containerParas := [], metaTexts := [],
            allParas := [], mainParas := none, bodyText := some "abc" },
        genericBlocks
          { headline := none, containerParas := [], metaTexts := [],
            allParas := [], mainParas := none, bodyText := some "abc" },
        bodyBlocks
          { headline := none, containerParas := [], metaTexts := [],
            allParas := [], mainParas := none, bodyText := some "abc" }] ∧
    ("abc" : String).length ≤ 8000 :=
  ⟨(c3_strategy_order_amended "https://news.site.org/a"
      { headline := none, containerParas := [], metaTexts := [],
        allParas := [], mainParas := none, bodyText := some "abc" }).1,
   (c3_strategy_order_amended "https://news.site.org/a"
      { headline := none, containerParas := [], metaTexts := [],
        allParas := [], mainParas := none, bodyText := some "abc" }).2
     "abc" (by decide)⟩

/-! ## Orchestrator theorems -/

/-- When both early URL guards pass, `fact_check_url` proceeds to the
pipeline body. -/
theorem factCheckUrlO_pipeline (url : String) (env : BotEnv)
    (hpat : urlPatternMatch url = true)
    (hyear : yearGuardOk url env.currentYear = true) :
    factCheckUrlO url env = factCheckUrlPipeline url env := by
  unfold factCheckUrlO
  rw [if_pos hpat]
  cases hfy : findYear url.data with
  | none => rfl
  | some y =>
    have hy : y ≤ env.currentYear := by
      unfold yearGuardOk at hyear
      rw [hfy] at hyear
      simpa using hyear
    simp only []
    rw [if_neg (by omega)]

/-- A fixed environment for witnesses: the crew returns a plain
(non-dict) result and the network is down. -/
def envC : BotEnv :=
  { currentYear := 2025, urlCrew := .otherResult "crew report",
    pageFetch := .exn "offline", textCrew := .otherResult "crew report" }

/-- C4: every URL that does not match the pattern
`^https?://[^\s/$.?#].[^\s]*$` is rejected with the invalid-URL-format
message.  No network call is performed: the result is this constant for
every environment (crew, fetch and year are quantified and unused). -/
theorem c4_invalid_url_rejected (url : String) (env : BotEnv)
    (h : urlPatternMatch url = false) :
    factCheckUrl url env =
      "Error: Invalid URL format. Please provide a valid URL starting with http:// or https://." := by
  simp [factCheckUrl, factCheckUrlO, h, renderOutcome]

/-- Witness for C4 at the spec's two sample inputs: a missing scheme and
the empty string. -/
theorem c4_invalid_url_rejected_witness :
    factCheckUrl "not-a-url" envC =
      "Error: Invalid URL format. Please provide a valid URL starting with http:// or https://." ∧
    factCheckUrl "" envC =
      "Error: Invalid URL format. Please provide a valid URL starting with http:// or https://." :=
  ⟨c4_invalid_url_rejected "not-a-url" envC (by decide),
   c4_invalid_url_rejected "" envC (by decide)⟩

/-- Counterexample to C5 as stated: `https://example.com/2020/9999/x` is
well-formed and contains the four-digit path segment `9999`, a year
greater than the current year 2025, yet `fact_check_url` runs the
pipeline (returning the crew result) instead of the future-date error:
`re.search` only ever inspects the first `/dddd/` segment, here 2020. -/
theorem c5_future_year_counterexample :
    specContainsFutureYear "https://example.com/2020/9999/x" envC.currentYear = true ∧
    urlPatternMatch "https://example.com/2020/9999/x" = true ∧
    factCheckUrl "https://example.com/2020/9999/x" envC = "crew report" ∧
    factCheckUrl "https://example.com/2020/9999/x" envC ≠
      "Error: URL contains a future date (9999), which may not be valid. Please check the URL." := by
  refine ⟨by decide, by decide, ?_, ?_⟩ <;> decide

/-- C5 as amended: for every well-formed URL whose FIRST slash-delimited
four-digit segment is a year strictly greater than the current year,
`fact_check_url` returns the future-date error and does not run the
pipeline (the result is independent of the crew environment). -/
theorem c5_future_year_amended (url : String) (env : BotEnv) (y : Nat)
    (hpat : urlPatternMatch url = true)
    (hy : findYear url.data = some y)
    (hfut : env.currentYear < y) :
    factCheckUrl url env =
      "Error: URL contains a future date (" ++ toString y ++
        "), which may not be valid. Please check the URL." := by
  unfold factCheckUrl factCheckUrlO
  rw [if_pos hpat, hy]
  simp only []
  rw [if_pos hfut]
  rfl

/-- Witness for C5 (amended): a well-formed URL whose first four-digit
segment is 9999 with current year 2025. -/
theorem c5_future_year_amended_witness :
    factCheckUrl "https://example.com/9999/x" envC =
      "Error: URL contains a future date (9999), which may not be valid. Please check the URL." := by
  have h := c5_future_year_amended "https://example.com/9999/x" envC 9999
    (by decide) (by decide) (by decide)
  exact h.trans (by decide)

/-- A BBC article paragraph of 203 characters (no boilerplate phrases). -/
def bbcLongPara : String :=
  "The committee approved the measure after a lengthy debate, and officials said the plan would take effect next year following a review period that includes public comment and further legal analysis today."

/-- Environment for the C2 counterexample: the extraction task reported
an error, and the direct fallback scrape of the BBC page recovers a
203-character paragraph — a success by the extractor's own 100-character
criterion. -/
def env2C : BotEnv :=
  { currentYear := 2025,
    urlCrew := .tasksOutput ["Error: extraction failed"],
    pageFetch := .ok 200 "https://www.bbc.com/news/articles/abc"
      { headline := none, containerParas := [], metaTexts := [],
        allParas := [bbcLongPara], mainParas := none, bodyText := none },
    textCrew := .otherResult "Completed report" }

/-- Counterexample to C2 as stated: the fallback scrape of the BBC URL
succeeds by the extractor's criterion (203 ≥ 100 characters of joined
text), yet `fact_check_url` returns the failure message instead of
re-entering the pipeline: line 718 demands more than 500 characters. -/
theorem c2_bbc_recovery_counterexample :
    100 ≤ (renderFallback
      (fallbackScrapeO "https://www.bbc.com/news/articles/abc" env2C.pageFetch)).length ∧
    factCheckUrlO "https://www.bbc.com/news/articles/abc" env2C =
      .failure
        "Failed to extract content from URL: https://www.bbc.com/news/articles/abc. Error: extraction failed" := by
  constructor <;> decide

/-- C2 as amended: for a well-formed BBC URL whose extraction-task output
signals an error (contains "Error" and is under 500 characters) and
whose direct fallback scrape yields MORE THAN 500 characters,
`fact_check_url` re-enters the pipeline through `fact_check_text` on the
recovered text and returns that call's result. -/
theorem c2_bbc_recovery_amended (url : String) (env : BotEnv) (outs : List String)
    (hpat : urlPatternMatch url = true)
    (hyear : yearGuardOk url env.currentYear = true)
    (hcrew : env.urlCrew = .tasksOutput outs)
    (hbbc : isBBCUrl url = true)
    (herr : strContains (cerOf outs) "Error" = true)
    (hlen : (cerOf outs).length < 500)
    (hfb : 500 < (renderFallback (fallbackScrapeO url env.pageFetch)).length) :
    factCheckUrl url env =
      factCheckText (renderFallback (fallbackScrapeO url env.pageFetch)) env.textCrew := by
  unfold factCheckUrl
  rw [factCheckUrlO_pipeline url env hpat hyear]
  unfold factCheckUrlPipeline
  rw [hcrew]
  simp only []
  rw [if_pos ⟨herr, hlen⟩, if_pos hbbc, if_pos hfb]
  rfl

/-- A 611-character paragraph (three sentences), long enough for the
500-character re-entry gate. -/
def bbcVeryLongPara : String :=
  bbcLongPara ++ " " ++ bbcLongPara ++ " " ++ bbcLongPara

/-- Environment for the C2 (amended) witness: same as `env2C` but the
fallback scrape recovers 611 characters. -/
def env2W : BotEnv :=
  { currentYear := 2025,
    urlCrew := .tasksOutput ["Error: extraction failed"],
    pageFetch := .ok 200 "https://www.bbc.com/news/articles/abc"
      { headline := none, containerParas := [], metaTexts := [],
        allParas := [bbcVeryLongPara], mainParas := none, bodyText := none },
    textCrew := .otherResult "Completed report" }

/-- Witness for C2 (amended) at a concrete BBC page. -/
theorem c2_bbc_recovery_amended_witness :
    factCheckUrl "https://www.bbc.com/news/articles/abc" env2W =
      factCheckText
        (renderFallback (fallbackScrapeO "https://www.bbc.com/news/articles/abc" env2W.pageFetch))
        env2W.textCrew :=
  c2_bbc_recovery_amended "https://www.bbc.com/news/articles/abc" env2W
    ["Error: extraction failed"] (by decide) (by decide) rfl (by decide)
    (by decide) (by decide) (by decide)

/-- C6: every failure return of `fact_check_url` — invalid URL format,
future date, extraction failure, or the final catch-all — is a
plain-text message beginning with the prefix "Error:" or with the
sentinel phrase "Failed to extract content from URL:"; no failure branch
returns a completed report. -/
theorem c6_failures_prefixed (url : String) (env : BotEnv) (m : String)
    (h : factCheckUrlO url env = .failure m) :
    strStarts m "Error:" = true ∨
      strStarts m "Failed to extract content from URL:" = true := by
  unfold factCheckUrlO factCheckUrlPipeline at h
  repeat' split at h
  all_goals cases h
  all_goals
    first
    | (left; decide)
    | (left; apply strStarts_append; decide)
    | (left; apply strStarts_append; apply strStarts_append; decide)
    | (right; apply strStarts_append; apply strStarts_append; apply strStarts_append; decide)

/-- Witness for C6 at the invalid-URL failure. -/
theorem c6_failures_prefixed_witness :
    strStarts
        "Error: Invalid URL format. Please provide a valid URL starting with http:// or https://."
        "Error:" = true ∨
      strStarts
        "Error: Invalid URL format. Please provide a valid URL starting with http:// or https://."
        "Failed to extract content from URL:" = true :=
  c6_failures_prefixed "not-a-url" envC _ (by decide)

/-- C7: the entry functions always return a string and never let an
exception escape.  Totality is the type of the model (`factCheckUrl` and
`factCheckText` are total functions into `String`); the provable content
is the boundary behaviour: a kickoff exception becomes the stringified
"Error:" message in both entry functions, `_fallback_scrape` converts
its own network/parse exceptions into an error-message result, and
`_run` answers a network exception by falling back instead of
raising. -/
theorem c7_no_exception_escapes :
    (∀ text m : String, factCheckText text (.raised m) = "Error: " ++ m) ∧
    (∀ (url : String) (env : BotEnv) (m : String),
      urlPatternMatch url = true → yearGuardOk url env.currentYear = true →
      env.urlCrew = .raised m → factCheckUrl url env = "Error: " ++ m) ∧
    (∀ url m : String,
      fallbackScrapeO url (.exn m) =
        .errorResult ("Error scraping URL " ++ url ++ ": " ++ m)) ∧
    (∀ url fb : String,
      strStarts url "http://" = true ∨ strStarts url "https://" = true →
      firecrawlRun url true none fb = (fb, 1)) := by
  refine ⟨fun _ _ => rfl, ?_, fun _ _ => rfl, ?_⟩
  · intro url env m hpat hyear hcrew
    unfold factCheckUrl
    rw [factCheckUrlO_pipeline url env hpat hyear]
    unfold factCheckUrlPipeline
    rw [hcrew]
    rfl
  · intro url fb hurl
    have hne : ¬ url = "" := by
      intro he
      subst he
      rcases hurl with h | h <;> exact absurd h (by decide)
    have hsw : ¬ (strStarts url "http://" || strStarts url "https://") = false := by
      rcases hurl with h | h <;> simp [h]
    unfold firecrawlRun
    rw [if_neg hne, if_neg hsw, if_neg (by simp)]

/-- Environment whose URL kickoff raises. -/
def envRaise : BotEnv :=
  { currentYear := 2025, urlCrew := .raised "boom",
    pageFetch := .exn "net down", textCrew := .raised "boom" }

/-- Witness for C7: a raised kickoff surfaces as "Error: boom" from both
entry functions. -/
theorem c7_no_exception_escapes_witness :
    factCheckText "some text" (.raised "boom") = "Error: boom" ∧
    factCheckUrl "https://example.com/x" envRaise = "Error: boom" :=
  ⟨(c7_no_exception_escapes.1 "some text" "boom").trans (by decide),
   (c7_no_exception_escapes.2.1 "https://example.com/x" envRaise "boom"
      (by decide) (by decide) rfl).trans (by decide)⟩

/-- C10: for every BBC URL whose extraction-task output does not signal
an error and whose final summary does not contain the phrase "verifiable
claims" (case-insensitively), `fact_check_url` returns the reformatted
BBC report, whose final label is **Real** regardless of the credibility
rating inside the summary. -/
theorem c10_bbc_real_label (url : String) (env : BotEnv) (outs : List String)
    (hpat : urlPatternMatch url = true)
    (hyear : yearGuardOk url env.currentYear = true)
    (hcrew : env.urlCrew = .tasksOutput outs)
    (hbbc : isBBCUrl url = true)
    (hok : ¬ (strContains (cerOf outs) "Error" = true ∧ (cerOf outs).length < 500))
    (hnv : strContains (lowerStr (finalSummaryOf outs)) "verifiable claims" = false) :
    factCheckUrlO url env = .report (bbcFormat url (finalSummaryOf outs)) ∧
    endsWithL (bbcFormat url (finalSummaryOf outs)) "**Real**" = true := by
  constructor
  · rw [factCheckUrlO_pipeline url env hpat hyear]
    unfold factCheckUrlPipeline
    rw [hcrew]
    simp only []
    rw [if_neg hok, if_pos ⟨hbbc, hnv⟩]
  · exact endsWithL_append _ "**Real**"

/-- Environment for the C10 witness: a clean BBC run whose summary rates
the article "Somewhat Credible". -/
def envBbcOk : BotEnv :=
  { currentYear := 2025,
    urlCrew := .tasksOutput
      ["Using URL from context: https://www.bbc.com/news/a. Article content extracted cleanly.",
       "Overall Credibility Rating: Somewhat Credible. Several claims could not be confirmed."],
    pageFetch := .exn "net down", textCrew := .otherResult "x" }

/-- Witness for C10: even a "Somewhat Credible" summary is relabelled
**Real** for a BBC URL. -/
theorem c10_bbc_real_label_witness :
    factCheckUrlO "https://www.bbc.com/news/a" envBbcOk =
      .report (bbcFormat "https://www.bbc.com/news/a" (finalSummaryOf
        ["Using URL from context: https://www.bbc.com/news/a. Article content extracted cleanly.",
         "Overall Credibility Rating: Somewhat Credible. Several claims could not be confirmed."])) ∧
    endsWithL (bbcFormat "https://www.bbc.com/news/a" (finalSummaryOf
        ["Using URL from context: https://www.bbc.com/news/a. Article content extracted cleanly.",
         "Overall Credibility Rating: Somewhat Credible. Several claims could not be confirmed."]))
      "**Real**" = true :=
  c10_bbc_real_label "https://www.bbc.com/news/a" envBbcOk
    ["Using URL from context: https://www.bbc.com/news/a. Article content extracted cleanly.",
     "Overall Credibility Rating: Somewhat Credible. Several claims could not be confirmed."]
    (by decide) (by decide) rfl (by decide) (by decide) (by decide)

/-- Witness for C8: an empty page (no body element, no paragraphs) joined
to the empty string, which is shorter than 100 characters. -/
theorem c8_short_content_is_error_witness :
    fallbackScrapeO "https://a.org/x"
      (.ok 200 "https://a.org/x"
        { headline := none, containerParas := [], metaTexts := [],
          allParas := [], mainParas := none, bodyText := none }) =
      .errorResult "Error: Could not extract meaningful content from https://a.org/x." := by
  have h := (c8_short_content_is_error.2 "https://a.org/x" "https://a.org/x"
    { headline := none, containerParas := [], metaTexts := [],
      allParas := [], mainParas := none, bodyText := none }
    (by decide) (by decide)).1
  exact h.trans (by decide)

/-! ## The search tool: `SearchTool._run` (lines 42-73)

The method lower-cases the query for its checks, optionally appends
`" recent news"` when the query reads like an undated news claim, and
for verification-flavoured queries runs two searches and concatenates
the results.  The DuckDuckGo client is the external collaborator: the
`search` argument maps a query string to its result blob, and
`searchQueries` lists the query strings sent to it, in order. -/

/-- Python regex word character (ASCII): letters, digits, underscore. -/
def isWordChar (c : Char) : Bool := c.isAlphanum || c = '_'

/-- The month-name alternatives of the date regex on line 55. -/
def monthNames : List String :=
  ["january", "february", "march", "april", "may", "june", "july",
   "august", "september", "october", "november", "december"]

/-- Length of the month name matching at the head of the list, if any. -/
def monthLenAt (cs : List Char) : Option Nat :=
  monthNames.findSome? fun m =>
    if startsWithL cs m.data = true then some m.data.length else none

/-- Length of a date alternative (`202\d` or a month name) matching at
the head of the list.  The `202\d` branch cannot overlap the month
branch (months start with letters). -/
def altLenAt (cs : List Char) : Option Nat :=
  match cs with
  | '2' :: '0' :: '2' :: d :: _ => if d.isDigit then some 4 else none
  | _ => monthLenAt cs

/-- Both alternatives end in a word character, so the right-hand word
boundary holds exactly when the next character is absent or not a word
character. -/
def boundaryOkAfter (cs : List Char) (n : Nat) : Bool :=
  match (cs.drop n).head? with
  | some c => !(isWordChar c)
  | none => true

/-- A date alternative matches at the head of the list with its right
word boundary. -/
def dateHitAt (cs : List Char) : Bool :=
  match altLenAt cs with
  | some n => boundaryOkAfter cs n
  | none => false

/-- Left-to-right scan for
`re.search(r'\b(202\d|january|...|december)\b', lowered_query)`
(line 55).  `prev` records whether the previous character is a word
character; the alternatives start with word characters, so the left
boundary holds exactly when `prev` is false. -/
def dateSearch : Bool → List Char → Bool
  | _, [] => false
  | prev, c :: rest =>
    ((!prev) && dateHitAt (c :: rest)) || dateSearch (isWordChar c) rest

/-- Does the lowered query contain a date term per line 55? -/
def hasDateTerm (lq : String) : Bool := dateSearch false lq.data

/-- Line 53: the query mentions a news source or news vocabulary. -/
def newsVocab (lq : String) : Bool :=
  strContains lq "bbc" || strContains lq "reuters" ||
    strContains lq "news" || strContains lq "reported"

/-- Lines 53-57: the query is news-flavoured, has no date term and no
"recent" term, so it gets the recency qualifier. -/
def enhanceCond (q : String) : Bool :=
  newsVocab (lowerStr q) && !(hasDateTerm (lowerStr q)) &&
    !(strContains (lowerStr q) "recent")

/-- Line 63: the query carries verification vocabulary. -/
def verifyCond (q : String) : Bool :=
  strContains (lowerStr q) "verify" || strContains (lowerStr q) "fact check"

/-- The query strings `SearchTool._run` sends to the search client, in
order (lines 42-73). -/
def searchQueries (q : String) : List String :=
  if enhanceCond q = true then [q ++ " recent news"]
  else if verifyCond q = true then
    [q, q ++ " confirmed OR verified by multiple sources"]
  else [q]

/-- The string `SearchTool._run` returns, over an explicit search
client. -/
def searchRun (q : String) (search : String → String) : String :=
  if enhanceCond q = true then search (q ++ " recent news")
  else if verifyCond q = true then
    "Regular search results:\n" ++ search q ++
      "\n\nVerification search results:\n" ++
      search (q ++ " confirmed OR verified by multiple sources")
  else search q

/-- Counterexample to C9 as stated: the query "bbc reported it. verify
the 2023 claim" contains news vocabulary and an explicit date term, so
per the claim it should be searched as given; the code instead falls
through to the verification branch and issues two queries, the second
one modified. -/
theorem c9_recency_rule_counterexample :
    newsVocab (lowerStr "bbc reported it. verify the 2023 claim") = true ∧
    hasDateTerm (lowerStr "bbc reported it. verify the 2023 claim") = true ∧
    searchQueries "bbc reported it. verify the 2023 claim" ≠
      ["bbc reported it. verify the 2023 claim"] := by
  refine ⟨by decide, by decide, by decide⟩

/-- C9 as amended: a news-flavoured query with no date term and no
recency term is searched once with `" recent news"` appended; a query
outside that case is searched exactly as given unless it contains
verification vocabulary ("verify" or "fact check"), in which case the
tool issues the original query and a "confirmed OR verified by multiple
sources" variant, returning both result blobs. -/
theorem c9_recency_rule_amended (q : String) :
    (enhanceCond q = true → searchQueries q = [q ++ " recent news"]) ∧
    (enhanceCond q = false → verifyCond q = false → searchQueries q = [q]) ∧
    (enhanceCond q = false → verifyCond q = true →
      searchQueries q = [q, q ++ " confirmed OR verified by multiple sources"]) := by
  refine ⟨fun h => ?_, fun h1 h2 => ?_, fun h1 h2 => ?_⟩
  · simp [searchQueries, h]
  · simp [searchQueries, h1, h2]
  · simp [searchQueries, h1, h2]

/-- Witness for C9 (amended): an undated news query is recency-enhanced,
and a dated news query without verification vocabulary is searched as
given. -/
theorem c9_recency_rule_amended_witness :
    searchQueries "bbc announcement" = ["bbc announcement" ++ " recent news"] ∧
    searchQueries "bbc reported this in march" = ["bbc reported this in march"] :=
  ⟨(c9_recency_rule_amended "bbc announcement").1 (by decide),
   (c9_recency_rule_amended "bbc reported this in march").2.1 (by decide) (by decide)⟩
